import Mathlib

/-!
Shallow embedding of the support-bot ticket system (`src/support_bot.py`).

The relational store is modelled as a `DB` record of lists of rows (one list
per table, mirroring the `CREATE TABLE` statements in `init_database`), plus
the set of photo files on disk (`files`) and the id counters the SQL
auto-increment columns provide.  Each handler of the Python class becomes a
pure function `DB → ... → DB × Outcome`; `CURRENT_TIMESTAMP` becomes an
explicit `now : Int` argument, and the Telegram network calls (which the
handlers only use for notifications and confirmations) are reflected in the
`Outcome` types.  External download success of an attachment is an explicit
`fetchOk : Bool` argument (the `try`/`except` in `save_photo_to_storage`).
-/

namespace SupportBot

/-- A row of the `tickets` table. -/
structure Ticket where
  id : Nat
  user_id : Nat
  username : String
  category : String
  subject : String
  description : String
  status : String
  assigned_admin : Option Nat
  created_at : Int
  updated_at : Int
  closed_at : Option Int
deriving Repr, DecidableEq

/-- A row of the `ticket_messages` table. -/
structure TicketMessage where
  id : Nat
  ticket_id : Nat
  user_id : Nat
  username : String
  message : String
  message_type : String
  file_id : Option String
  is_admin : Bool
  timestamp : Int
deriving Repr, DecidableEq

/-- A row of the `ticket_photos` table (file sizes are not modelled; the
on-disk tree is modelled as the list of stored path names). -/
structure TicketPhoto where
  id : Nat
  ticket_id : Nat
  file_id : String
  file_path : String
  original_filename : String
  uploaded_by : Nat
  is_admin : Bool
deriving Repr, DecidableEq

/-- A row of the `cleanup_jobs` table. -/
structure CleanupJob where
  id : Nat
  ticket_id : Nat
  scheduled_date : Int
  executed_date : Option Int
  files_cleaned : Nat
  status : String
deriving Repr, DecidableEq

/-- A row of the `admins` table. -/
structure AdminRow where
  user_id : Nat
  username : String
  role : String
  added_by : Nat
deriving Repr, DecidableEq

/-- The persistent store: the six tables plus the photo directory contents
and the auto-increment counters. -/
structure DB where
  tickets : List Ticket
  ticket_messages : List TicketMessage
  ticket_photos : List TicketPhoto
  cleanup_jobs : List CleanupJob
  admins : List AdminRow
  categories : List (String × String)
  files : List String
  nextTicketId : Nat
  nextMessageId : Nat
  nextPhotoId : Nat
  nextJobId : Nat
deriving Repr, DecidableEq

/-- A Telegram user as the handlers see it. -/
structure TgUser where
  id : Nat
  username : Option String
  first_name : String
deriving Repr, DecidableEq

/-- `user.username or user.first_name` (Python `or`: an empty username is
falsy and falls through to the first name). -/
def TgUser.display (u : TgUser) : String :=
  match u.username with
  | some s => if s.isEmpty then u.first_name else s
  | none => u.first_name

/-- `context.user_data`: the per-actor conversational context.  Absent dict
keys are `none` / `false`. -/
structure UserCtx where
  ticket_category : Option String
  ticket_subject : Option String
  expecting : Option String
  adding_category : Bool
  adding_description : Bool
  category_name : Option String
  adding_admin : Bool
  replying_to_ticket : Option Nat
deriving Repr, DecidableEq

/-- `context.user_data.clear()`: the Idle context. -/
def UserCtx.idle : UserCtx :=
  { ticket_category := none, ticket_subject := none, expecting := none,
    adding_category := false, adding_description := false,
    category_name := none, adding_admin := false, replying_to_ticket := none }

/-- `init_database`: empty tables except the default categories and the
seeded main-admin row. -/
def initialDB (main_admin_id : Nat) : DB :=
  { tickets := [], ticket_messages := [], ticket_photos := [],
    cleanup_jobs := [],
    admins := [{ user_id := main_admin_id, username := "Main Admin",
                 role := "main_admin", added_by := main_admin_id }],
    categories :=
      [("General Question", "General questions and inquiries"),
       ("Bug Report", "Report bugs and technical issues"),
       ("Partnership", "Partnership and collaboration requests")],
    files := [], nextTicketId := 1, nextMessageId := 1, nextPhotoId := 1,
    nextJobId := 1 }

/-- `is_admin`: membership in the `admins` table. -/
def is_admin (db : DB) (user_id : Nat) : Bool :=
  db.admins.any (fun a => a.user_id == user_id)

/-- `is_main_admin`: comparison against the constructor-supplied id only;
the `admins` table is not consulted. -/
def is_main_admin (main_admin_id : Nat) (user_id : Nat) : Bool :=
  user_id == main_admin_id

/-- `get_photo_storage_path`: deterministic path from ticket, sender role,
user and time; the trailing sequence number counts the already-stored files
sharing the same day prefix (the `strftime` day bucket is modelled as the
epoch day `now / 86400`). -/
def get_photo_storage_path (files : List String) (ticket_id user_id : Nat)
    (isAdm : Bool) (now : Int) : String :=
  let sender_type := if isAdm then "admin" else "user"
  let pfx := "photos/tickets/ticket_" ++ toString ticket_id ++ "_" ++
    sender_type ++ "_" ++ toString user_id ++ "_" ++ toString (now / 86400)
  let existing_count := (files.filter (fun f => pfx.isPrefixOf f)).length
  pfx ++ "_" ++ toString now ++ "_" ++ toString (existing_count + 1) ++ ".jpg"

/-- `save_photo_to_storage`: on download success, write the file and insert
a `ticket_photos` row, returning the storage path; any failure is caught and
reported as `none` with the store untouched. -/
def save_photo_to_storage (db : DB) (file_id : String)
    (ticket_id user_id : Nat) (isAdm : Bool) (now : Int) (fetchOk : Bool) :
    DB × Option String :=
  if fetchOk then
    let path := get_photo_storage_path db.files ticket_id user_id isAdm now
    ({ db with
        files := db.files ++ [path],
        ticket_photos := db.ticket_photos ++
          [{ id := db.nextPhotoId, ticket_id := ticket_id, file_id := file_id,
             file_path := path, original_filename := "image.jpg",
             uploaded_by := user_id, is_admin := isAdm }],
        nextPhotoId := db.nextPhotoId + 1 },
     some path)
  else (db, none)

/-- The shared `UPDATE tickets SET status = 'closed',
closed_at = CURRENT_TIMESTAMP WHERE id = ?`. -/
def updateClose (db : DB) (ticket_id : Nat) (now : Int) : DB :=
  { db with tickets := db.tickets.map (fun t =>
      if t.id == ticket_id then
        { t with status := "closed", closed_at := some now }
      else t) }

/-- `UPDATE tickets SET updated_at = CURRENT_TIMESTAMP WHERE id = ?`. -/
def bumpUpdatedAt (db : DB) (ticket_id : Nat) (now : Int) : DB :=
  { db with tickets := db.tickets.map (fun t =>
      if t.id == ticket_id then { t with updated_at := now } else t) }

/-- `INSERT INTO ticket_messages ...`. -/
def insertMessage (db : DB) (ticket_id user_id : Nat) (username message
    message_type : String) (file_id : Option String) (isAdm : Bool)
    (now : Int) : DB :=
  { db with
      ticket_messages := db.ticket_messages ++
        [{ id := db.nextMessageId, ticket_id := ticket_id,
           user_id := user_id, username := username, message := message,
           message_type := message_type, file_id := file_id,
           is_admin := isAdm, timestamp := now }],
      nextMessageId := db.nextMessageId + 1 }

/-- The decoded callback data routed to `close_ticket`: the
`admin_close_<id>` pattern and the bare `close_<id>` pattern. -/
inductive CloseCallback where
  | adminClose (ticket_id : Nat)
  | bareClose (ticket_id : Nat)
deriving Repr, DecidableEq

/-- What `close_ticket` answers on the chat. -/
inductive CloseOutcome where
  | accessDenied
  | closedConfirmation (ticket_id : Nat)
deriving Repr, DecidableEq

/-- `close_ticket`: the `admin_close_` branch checks `is_admin` and denies
non-admins; both branches then run the unconditional closing `UPDATE` with
no existence or status check. -/
def close_ticket (db : DB) (cb : CloseCallback) (from_user : Nat)
    (now : Int) : DB × CloseOutcome :=
  match cb with
  | .adminClose tid =>
      if is_admin db from_user then
        (updateClose db tid now, .closedConfirmation tid)
      else (db, .accessDenied)
  | .bareClose tid => (updateClose db tid now, .closedConfirmation tid)

/-- What `handle_user_close` answers on the chat. -/
inductive UserCloseOutcome where
  | notFoundOrClosed
  | closedConfirmation (ticket_id : Nat)
deriving Repr, DecidableEq

/-- `handle_user_close`: select the ticket with `id = ? AND status = 'open'`;
if absent or not owned by the caller answer "not found or already closed"
and change nothing, otherwise run the closing `UPDATE`. -/
def handle_user_close (db : DB) (ticket_id : Nat) (user : TgUser)
    (now : Int) : DB × UserCloseOutcome :=
  match db.tickets.find? (fun t => t.id == ticket_id && t.status == "open") with
  | none => (db, .notFoundOrClosed)
  | some t =>
      if t.user_id == user.id then
        (updateClose db ticket_id now, .closedConfirmation ticket_id)
      else (db, .notFoundOrClosed)

/-- The element of maximal `updated_at` in `t :: ts` (first one wins ties),
realising `ORDER BY updated_at DESC LIMIT 1`. -/
def pickLatest (t : Ticket) (ts : List Ticket) : Ticket :=
  ts.foldl (fun best u => if best.updated_at < u.updated_at then u else best) t

/-- `SELECT id FROM tickets WHERE user_id = ? AND status = 'open'
ORDER BY updated_at DESC LIMIT 1`. -/
def find_active_ticket (db : DB) (user_id : Nat) : Option Nat :=
  match db.tickets.filter (fun t => t.user_id == user_id && t.status == "open") with
  | [] => none
  | t :: ts => some (pickLatest t ts).id

/-- An inbound content event: free text, or a photo with optional caption. -/
inductive InboundMsg where
  | text (s : String)
  | photo (file_id : String) (caption : Option String)
deriving Repr, DecidableEq

/-- Python `caption or default` (empty caption is falsy). -/
def captionOr (caption : Option String) (dflt : String) : String :=
  match caption with
  | some c => if c.isEmpty then dflt else c
  | none => dflt

/-- What `handle_ticket_message` does visibly. -/
inductive TicketMsgOutcome where
  | ignored
  | added (ticket_id : Nat)
deriving Repr, DecidableEq

/-- `handle_ticket_message`: route a bare message onto the sender's active
ticket; without one, return with no write.  With one: store the photo (best
effort), insert the message row, bump `updated_at`, confirm to the user. -/
def handle_ticket_message (db : DB) (user : TgUser) (ev : InboundMsg)
    (now : Int) (fetchOk : Bool) : DB × TicketMsgOutcome :=
  let message_type := match ev with | .text _ => "text" | .photo _ _ => "photo"
  let message_text := match ev with
    | .text s => s
    | .photo _ cap => captionOr cap "📸 User sent an image"
  let file_id : Option String := match ev with
    | .text _ => none
    | .photo fid _ => some fid
  match find_active_ticket db user.id with
  | none => (db, .ignored)
  | some ticket_id =>
      let db1 := match file_id with
        | some fid =>
            if message_type == "photo" then
              (save_photo_to_storage db fid ticket_id user.id false now fetchOk).1
            else db
        | none => db
      let db2 := insertMessage db1 ticket_id user.id user.display
        message_text message_type file_id false now
      (bumpUpdatedAt db2 ticket_id now, .added ticket_id)

/-- What `handle_admin_reply` does visibly. -/
inductive ReplyOutcome where
  | notFound
  | sent (ticket_id : Nat)
deriving Repr, DecidableEq

/-- `handle_admin_reply`: post the captured admin message onto the target
ticket of the reply context; a vanished ticket clears the context and
surfaces not-found. -/
def handle_admin_reply (db : DB) (ctx : UserCtx) (user : TgUser)
    (ev : InboundMsg) (now : Int) (fetchOk : Bool) :
    DB × UserCtx × ReplyOutcome :=
  match ctx.replying_to_ticket with
  | none => (db, ctx, .notFound)
  | some ticket_id =>
      match db.tickets.find? (fun t => t.id == ticket_id) with
      | none => (db, { ctx with replying_to_ticket := none }, .notFound)
      | some _ =>
          let message_text := match ev with
            | .text s => s
            | .photo _ cap => captionOr cap "Image from support team"
          let message_type := match ev with
            | .text _ => "text" | .photo _ _ => "photo"
          let file_id : Option String := match ev with
            | .text _ => none | .photo fid _ => some fid
          let db1 := match ev with
            | .photo fid _ =>
                (save_photo_to_storage db fid ticket_id user.id true now fetchOk).1
            | .text _ => db
          let db2 := insertMessage db1 ticket_id user.id user.display
            message_text message_type file_id true now
          (bumpUpdatedAt db2 ticket_id now,
           { ctx with replying_to_ticket := none }, .sent ticket_id)

/-- What `take_ticket` does visibly. -/
inductive TakeOutcome where
  | accessDenied
  | assigned (ticket_id : Nat)
deriving Repr, DecidableEq

/-- `take_ticket`: any admin may assign the ticket to themselves. -/
def take_ticket (db : DB) (from_user ticket_id : Nat) (now : Int) :
    DB × TakeOutcome :=
  if is_admin db from_user then
    ({ db with tickets := db.tickets.map (fun t =>
        if t.id == ticket_id then
          { t with assigned_admin := some from_user, updated_at := now }
        else t) },
     .assigned ticket_id)
  else (db, .accessDenied)

/-- Python falsiness of an optional string field (`not category` is true for
a missing key and for the empty string). -/
def pyFalsy : Option String → Bool
  | none => true
  | some s => s.isEmpty

/-- Python `str.strip()`: drop whitespace from both ends (modelled over the
character list). -/
def pyStrip (s : String) : String :=
  String.mk
    (((s.data.dropWhile Char.isWhitespace).reverse.dropWhile
        Char.isWhitespace).reverse)

/-- Python `int(text)` on stripped input, for the nonnegative decimal
numerals user ids are; anything else raises `ValueError`, modelled as
`none`. -/
def pyToNat? (s : String) : Option Nat :=
  if s.data ≠ [] && s.data.all Char.isDigit then
    some (s.data.foldl (fun n c => n * 10 + (c.toNat - 48)) 0)
  else none

/-- What `create_ticket_final` does visibly. -/
inductive CreateOutcome where
  | missingInfo
  | created (ticket_id : Nat)
deriving Repr, DecidableEq

/-- `create_ticket_final`: with category and subject accumulated in the
context, insert the `tickets` row (`status='open'`), optionally store the
photo, notify, and clear the context; with either missing, clear the context
and ask to start over. -/
def create_ticket_final (db : DB) (ctx : UserCtx) (user : TgUser)
    (description : String) (file_id : Option String) (now : Int)
    (fetchOk : Bool) : DB × UserCtx × CreateOutcome :=
  if pyFalsy ctx.ticket_category || pyFalsy ctx.ticket_subject then
    (db, .idle, .missingInfo)
  else
    let category := ctx.ticket_category.getD ""
    let subject := ctx.ticket_subject.getD ""
    let ticket_id := db.nextTicketId
    let db1 := { db with
      tickets := db.tickets ++
        [{ id := ticket_id, user_id := user.id, username := user.display,
           category := category, subject := subject,
           description := description, status := "open",
           assigned_admin := none, created_at := now, updated_at := now,
           closed_at := none }],
      nextTicketId := ticket_id + 1 }
    let db2 := match file_id with
      | some fid => (save_photo_to_storage db1 fid ticket_id user.id false now fetchOk).1
      | none => db1
    (db2, .idle, .created ticket_id)

/-- What `handle_admin_input` does visibly. -/
inductive AdminAddOutcome where
  | ignored
  | invalidId
  | alreadyAdmin (user_id : Nat)
  | added (user_id : Nat)
deriving Repr, DecidableEq

/-- `handle_admin_input`: guarded by the `adding_admin` context flag and the
main-admin check; parse the id, reject duplicates, insert the new roster row
with role `'admin'` and clear the context (an unparsable id leaves the
context in place). -/
def handle_admin_input (main_admin_id : Nat) (db : DB) (ctx : UserCtx)
    (caller : Nat) (text : String) : DB × UserCtx × AdminAddOutcome :=
  if !ctx.adding_admin then (db, ctx, .ignored)
  else if !is_main_admin main_admin_id caller then (db, ctx, .ignored)
  else
    match pyToNat? (pyStrip text) with
    | none => (db, ctx, .invalidId)
    | some user_id =>
        if db.admins.any (fun a => a.user_id == user_id) then
          (db, .idle, .alreadyAdmin user_id)
        else
          ({ db with admins := db.admins ++
              [{ user_id := user_id, username := "Admin_" ++ toString user_id,
                 role := "admin", added_by := caller }] },
           .idle, .added user_id)

/-- What the category wizard handlers do visibly. -/
inductive CatOutcome where
  | ignored
  | tooLong
  | askDescription (name : String)
  | duplicate (name : String)
  | added (name : String)
deriving Repr, DecidableEq

/-- `handle_category_input`: first wizard turn, accepts the category name. -/
def handle_category_input (main_admin_id : Nat) (db : DB) (ctx : UserCtx)
    (caller : Nat) (text : String) : DB × UserCtx × CatOutcome :=
  if !ctx.adding_category then (db, ctx, .ignored)
  else if !is_main_admin main_admin_id caller then (db, ctx, .ignored)
  else
    let category_name := pyStrip text
    if category_name.length > 50 then (db, ctx, .tooLong)
    else
      (db,
       { ctx with
           category_name := some category_name,
           adding_category := false,
           adding_description := true },
       .askDescription category_name)

/-- `handle_category_description`: second wizard turn, commits the category
insert (a name collision raises, is caught and reported); the context is
cleared on commit and on collision alike. -/
def handle_category_description (main_admin_id : Nat) (db : DB)
    (ctx : UserCtx) (caller : Nat) (text : String) : DB × UserCtx × CatOutcome :=
  if !ctx.adding_description then (db, ctx, .ignored)
  else if !is_main_admin main_admin_id caller then (db, ctx, .ignored)
  else
    let description := pyStrip text
    let category_name := ctx.category_name.getD ""
    if description.length > 200 then (db, ctx, .tooLong)
    else if db.categories.any (fun c => c.1 == category_name) then
      (db, .idle, .duplicate category_name)
    else
      ({ db with categories := db.categories ++ [(category_name, description)] },
       .idle, .added category_name)

/-- The four persistent-keyboard labels the general text handler ignores. -/
def keyboardLabels : List String :=
  ["🎫 Create New Ticket", "📋 My Tickets", "🔒 Close Ticket", "ℹ️ Help"]

/-- What `handle_admin_input_enhanced` does visibly. -/
inductive EnhOutcome where
  | ignoredLabel
  | catFlow (o : CatOutcome)
  | adminFlow (o : AdminAddOutcome)
  | replyFlow (o : ReplyOutcome)
  | subjectStored (s : String)
  | createFlow (o : CreateOutcome)
  | ticketMsg (o : TicketMsgOutcome)
  | noAction
deriving Repr, DecidableEq

/-- `handle_admin_input_enhanced`: the general free-text dispatcher.  The
four keyboard labels are filtered out first; then the wizard flags are
tried in order; an `expecting` context advances the ticket wizard; with no
context at all the text is routed as a ticket follow-up message. -/
def handle_admin_input_enhanced (main_admin_id : Nat) (db : DB)
    (ctx : UserCtx) (user : TgUser) (text : String) (now : Int)
    (fetchOk : Bool) : DB × UserCtx × EnhOutcome :=
  if keyboardLabels.contains text then (db, ctx, .ignoredLabel)
  else if ctx.adding_category then
    let r := handle_category_input main_admin_id db ctx user.id text
    (r.1, r.2.1, .catFlow r.2.2)
  else if ctx.adding_description then
    let r := handle_category_description main_admin_id db ctx user.id text
    (r.1, r.2.1, .catFlow r.2.2)
  else if ctx.adding_admin then
    let r := handle_admin_input main_admin_id db ctx user.id text
    (r.1, r.2.1, .adminFlow r.2.2)
  else if ctx.replying_to_ticket.isSome && is_admin db user.id then
    let r := handle_admin_reply db ctx user (.text text) now fetchOk
    (r.1, r.2.1, .replyFlow r.2.2)
  else
    match ctx.expecting with
    | some e =>
        if e == "subject" then
          (db,
           { ctx with
               ticket_subject := some text,
               expecting := some "description" },
           .subjectStored text)
        else if e == "description" then
          let r := create_ticket_final db ctx user text none now fetchOk
          (r.1, r.2.1, .createFlow r.2.2)
        else (db, ctx, .noAction)
    | none =>
        let r := handle_ticket_message db user (.text text) now fetchOk
        (r.1, ctx, .ticketMsg r.2)

/-- One `Path.unlink` attempt of the cleanup loop: delete the photo's path
if it still exists and count it, otherwise leave the accumulator alone. -/
def delStep (acc : List String × Nat) (p : TicketPhoto) :
    List String × Nat :=
  if acc.1.contains p.file_path then (acc.1.erase p.file_path, acc.2 + 1)
  else acc

/-- The file deletions of `cleanup_ticket`: unlink each photo's path if it
still exists, counting the files actually deleted (errors are logged and
skipped; a missing file is simply not counted). -/
def deleteFiles (photos : List TicketPhoto) (files : List String) :
    List String × Nat :=
  photos.foldl delStep (files, 0)

/-- `cleanup_ticket`: best-effort delete the photo files, hard-delete the
`ticket_photos` and `ticket_messages` rows, and overwrite the ticket's
`description` and `username` with the anonymization sentinels; returns the
number of files deleted. -/
def cleanup_ticket (db : DB) (ticket_id : Nat) : DB × Nat :=
  let photos := db.ticket_photos.filter (fun p => p.ticket_id == ticket_id)
  let fd := deleteFiles photos db.files
  ({ db with
      files := fd.1,
      ticket_photos := db.ticket_photos.filter (fun p => p.ticket_id != ticket_id),
      ticket_messages := db.ticket_messages.filter (fun m => m.ticket_id != ticket_id),
      tickets := db.tickets.map (fun t =>
        if t.id == ticket_id then
          { t with description := "[CLEANED]", username := "[ANONYMIZED]" }
        else t) },
   fd.2)

/-- The retention window: 7 days, in seconds. -/
def retentionSeconds : Int := 7 * 86400

/-- Eligibility test of the cleanup scan: closed, closed before the cutoff,
and not already recorded as completed in `cleanup_jobs` (an SQL `NULL`
`closed_at` compares as unknown and is never selected). -/
def cleanupEligible (db : DB) (cutoff : Int) (t : Ticket) : Bool :=
  t.status == "closed" &&
  (match t.closed_at with | some c => c < cutoff | none => false) &&
  !(db.cleanup_jobs.any (fun j => j.status == "completed" && j.ticket_id == t.id))

/-- One iteration of the cleanup loop: clean the ticket, then record the
completed `cleanup_jobs` row with the count of files deleted. -/
def cleanupStep (cutoff now : Int) (db : DB) (ticket_id : Nat) : DB :=
  let r := cleanup_ticket db ticket_id
  { r.1 with
      cleanup_jobs := r.1.cleanup_jobs ++
        [{ id := r.1.nextJobId, ticket_id := ticket_id,
           scheduled_date := cutoff, executed_date := some now,
           files_cleaned := r.2, status := "completed" }],
      nextJobId := r.1.nextJobId + 1 }

/-- `run_cleanup_job`: scan once for eligible tickets (closed more than 7
days ago, not yet completed), then clean each in turn. -/
def run_cleanup_job (db : DB) (now : Int) : DB :=
  let cutoff := now - retentionSeconds
  let targets := (db.tickets.filter (cleanupEligible db cutoff)).map (fun t => t.id)
  targets.foldl (cleanupStep cutoff now) db

/-- Every mutating entry point of the system, as dispatched from the
transport layer. -/
inductive Op where
  | opCreate (ctx : UserCtx) (user : TgUser) (description : String)
      (file_id : Option String) (now : Int) (fetchOk : Bool)
  | opUserMsg (user : TgUser) (ev : InboundMsg) (now : Int) (fetchOk : Bool)
  | opAdminReply (ctx : UserCtx) (user : TgUser) (ev : InboundMsg)
      (now : Int) (fetchOk : Bool)
  | opTake (from_user ticket_id : Nat) (now : Int)
  | opCloseCb (cb : CloseCallback) (from_user : Nat) (now : Int)
  | opUserClose (ticket_id : Nat) (user : TgUser) (now : Int)
  | opCleanup (now : Int)
  | opAddAdmin (ctx : UserCtx) (caller : Nat) (text : String)
  | opAddCategory (ctx : UserCtx) (caller : Nat) (text : String)

/-- The state transition of each entry point (outcomes projected away). -/
def applyOp (main_admin_id : Nat) (db : DB) : Op → DB
  | .opCreate ctx user description file_id now fetchOk =>
      (create_ticket_final db ctx user description file_id now fetchOk).1
  | .opUserMsg user ev now fetchOk =>
      (handle_ticket_message db user ev now fetchOk).1
  | .opAdminReply ctx user ev now fetchOk =>
      (handle_admin_reply db ctx user ev now fetchOk).1
  | .opTake from_user ticket_id now =>
      (take_ticket db from_user ticket_id now).1
  | .opCloseCb cb from_user now => (close_ticket db cb from_user now).1
  | .opUserClose ticket_id user now =>
      (handle_user_close db ticket_id user now).1
  | .opCleanup now => run_cleanup_job db now
  | .opAddAdmin ctx caller text =>
      (handle_admin_input main_admin_id db ctx caller text).1
  | .opAddCategory ctx caller text =>
      (handle_category_description main_admin_id db ctx caller text).1

/-- The stores reachable from a fresh installation through the entry
points. -/
inductive Reachable (main_admin_id : Nat) : DB → Prop where
  | init : Reachable main_admin_id (initialDB main_admin_id)
  | step {db : DB} (op : Op) :
      Reachable main_admin_id db →
      Reachable main_admin_id (applyOp main_admin_id db op)

/-- The ticket-lifecycle invariant of §8: `closed_at` is set exactly when
the status is `closed`. -/
def closedInvariant (db : DB) : Prop :=
  ∀ t ∈ db.tickets, (t.closed_at ≠ none ↔ t.status = "closed")

/-- The `ticket_messages` rows of one ticket. -/
def msgsFor (db : DB) (tid : Nat) : List TicketMessage :=
  db.ticket_messages.filter (fun m => m.ticket_id == tid)

/-- The `ticket_photos` rows of one ticket. -/
def photosFor (db : DB) (tid : Nat) : List TicketPhoto :=
  db.ticket_photos.filter (fun p => p.ticket_id == tid)

/-- The `cleanup_jobs` rows of one ticket. -/
def jobsFor (db : DB) (tid : Nat) : List CleanupJob :=
  db.cleanup_jobs.filter (fun j => j.ticket_id == tid)

/-- The completed `cleanup_jobs` rows of one ticket. -/
def completedJobsFor (db : DB) (tid : Nat) : List CleanupJob :=
  (jobsFor db tid).filter (fun j => j.status == "completed")

/-- The `tickets` rows with a given id. -/
def rowsFor (db : DB) (tid : Nat) : List Ticket :=
  db.tickets.filter (fun t => t.id == tid)

/-- The anonymizing overwrite cleanup applies to the ticket row. -/
def anonymize (t : Ticket) : Ticket :=
  { t with description := "[CLEANED]", username := "[ANONYMIZED]" }

/-- The facts about one ticket's stored data that the cleanup loop must
preserve while it processes other tickets: its four row projections are
fixed, its photo files stay on disk, and no other ticket's photo row points
into its file paths. -/
def C4Inv (P : List TicketPhoto) (M : List TicketMessage)
    (J : List CleanupJob) (R : List Ticket) (tid : Nat) (db : DB) : Prop :=
  msgsFor db tid = M ∧ photosFor db tid = P ∧ jobsFor db tid = J ∧
  rowsFor db tid = R ∧
  (∀ p ∈ P.map (fun q => q.file_path), p ∈ db.files) ∧
  (∀ q ∈ db.ticket_photos, q.ticket_id ≠ tid →
    q.file_path ∉ P.map (fun r => r.file_path))

/-- Fixture: a requester. -/
def alice : TgUser := { id := 10, username := some "alice", first_name := "Alice" }

/-- Fixture: a user who is neither an admin nor a ticket owner. -/
def mallory : TgUser := { id := 99, username := none, first_name := "Mallory" }

/-- Fixture: a ticket that is already closed (closed at time 100). -/
def closedTicket : Ticket :=
  { id := 1, user_id := 10, username := "alice", category := "Bug Report",
    subject := "Login fails", description := "Cannot log in on mobile",
    status := "closed", assigned_admin := none, created_at := 0,
    updated_at := 5, closed_at := some 100 }

/-- Fixture: an open ticket owned by user 10. -/
def openTicket : Ticket :=
  { id := 1, user_id := 10, username := "alice", category := "Bug Report",
    subject := "Login fails", description := "Cannot log in on mobile",
    status := "open", assigned_admin := none, created_at := 0,
    updated_at := 5, closed_at := none }

/-- Fixture: a fresh store (main admin 1) holding only `closedTicket`. -/
def dbClosed : DB := { initialDB 1 with tickets := [closedTicket], nextTicketId := 2 }

/-- Fixture: a fresh store (main admin 1) holding only `openTicket`. -/
def dbOpen : DB := { initialDB 1 with tickets := [openTicket], nextTicketId := 2 }

/-- Fixture: a creation-wizard context that has accumulated the category and
the subject and awaits the description. -/
def wizardCtx : UserCtx :=
  { UserCtx.idle with
      ticket_category := some "Bug Report",
      ticket_subject := some "Login fails",
      expecting := some "description" }

/-- Fixture: the ticket the wizard run of `wizardCtx` creates at time 50. -/
def createdTicket : Ticket :=
  { id := 1, user_id := 10, username := "alice", category := "Bug Report",
    subject := "Login fails", description := "Cannot log in on mobile",
    status := "open", assigned_admin := none, created_at := 50,
    updated_at := 50, closed_at := none }

/-- Fixture: the store reached from a fresh installation by one completed
creation wizard. -/
def reachedDB : DB :=
  applyOp 1 (initialDB 1)
    (.opCreate wizardCtx alice "Cannot log in on mobile" none 50 true)

/-- Fixture: a stored photo of ticket 1. -/
def photoA : TicketPhoto :=
  { id := 1, ticket_id := 1, file_id := "FA", file_path := "pa.jpg",
    original_filename := "image.jpg", uploaded_by := 10, is_admin := false }

/-- Fixture: a second stored photo of ticket 1. -/
def photoB : TicketPhoto :=
  { id := 2, ticket_id := 1, file_id := "FB", file_path := "pb.jpg",
    original_filename := "image.jpg", uploaded_by := 10, is_admin := true }

/-- Fixture: a follow-up message on ticket 1. -/
def followupMsg : TicketMessage :=
  { id := 1, ticket_id := 1, user_id := 10, username := "alice",
    message := "still broken", message_type := "text", file_id := none,
    is_admin := false, timestamp := 10 }

/-- Fixture: a store whose only ticket closed at time 100 with one message
and two stored attachments, ripe for retention cleanup. -/
def dbRetention : DB :=
  { initialDB 1 with
      tickets := [closedTicket],
      ticket_messages := [followupMsg],
      ticket_photos := [photoA, photoB],
      files := ["pa.jpg", "pb.jpg"],
      nextTicketId := 2, nextMessageId := 2, nextPhotoId := 3 }

/-! ## Frame lemmas for the attachment store -/

theorem save_photo_tickets (db : DB) (fid : String) (tid uid : Nat)
    (a : Bool) (now : Int) (fok : Bool) :
    (save_photo_to_storage db fid tid uid a now fok).1.tickets = db.tickets := by
  cases fok <;> rfl

theorem save_photo_messages (db : DB) (fid : String) (tid uid : Nat)
    (a : Bool) (now : Int) (fok : Bool) :
    (save_photo_to_storage db fid tid uid a now fok).1.ticket_messages =
      db.ticket_messages := by
  cases fok <;> rfl

theorem save_photo_nextMessageId (db : DB) (fid : String) (tid uid : Nat)
    (a : Bool) (now : Int) (fok : Bool) :
    (save_photo_to_storage db fid tid uid a now fok).1.nextMessageId =
      db.nextMessageId := by
  cases fok <;> rfl

/-! ## C1: closing an already-closed ticket -/

/-- C1, counterexample: in a store whose only ticket is already closed with
`closed_at = 100`, the admin close callback (caller 1 is an admin) reports a
plain closure confirmation — there is no AlreadyClosed answer — and
overwrites `closed_at` with the current time 200. -/
theorem c1_counterexample :
    is_admin dbClosed 1 = true ∧
    (∃ t ∈ dbClosed.tickets, t.status = "closed" ∧ t.closed_at = some 100) ∧
    (close_ticket dbClosed (.adminClose 1) 1 200).2 = .closedConfirmation 1 ∧
    (close_ticket dbClosed (.adminClose 1) 1 200).1.tickets.map
      Ticket.closed_at = [some 200] := by
  decide

/-- C1 (amended): the user close path answers "not found or already closed"
for a closed ticket and leaves the store untouched, but the admin close
callback never reports already-closed: it unconditionally re-runs the
closing UPDATE, overwriting `closed_at` with the current time. -/
theorem c1_close_already_closed
    (db : DB) (tid : Nat) (u : TgUser) (fu : Nat) (now : Int)
    (hclosed : ∀ t ∈ db.tickets, t.id = tid → t.status = "closed")
    (hadm : is_admin db fu = true) :
    handle_user_close db tid u now = (db, .notFoundOrClosed) ∧
    (close_ticket db (.adminClose tid) fu now).2 = .closedConfirmation tid ∧
    ∀ t ∈ db.tickets, t.id = tid →
      { t with status := "closed", closed_at := some now } ∈
        (close_ticket db (.adminClose tid) fu now).1.tickets := by
  have hf : db.tickets.find?
      (fun t => t.id == tid && t.status == "open") = none := by
    apply List.find?_eq_none.mpr
    intro t ht
    by_cases h : t.id = tid
    · have hc := hclosed t ht h
      simp [h, hc]
    · simp [h]
  refine ⟨by simp [handle_user_close, hf], by simp [close_ticket, hadm], ?_⟩
  intro t ht hid
  simp only [close_ticket, hadm, if_true, updateClose]
  exact List.mem_map.mpr ⟨t, ht, by simp [hid]⟩

/-- C1 witness: the amended statement at the concrete already-closed
store. -/
theorem c1_witness :
    handle_user_close dbClosed 1 alice 200 = (dbClosed, .notFoundOrClosed) ∧
    (close_ticket dbClosed (.adminClose 1) 1 200).2 = .closedConfirmation 1 ∧
    { closedTicket with status := "closed", closed_at := some (200 : Int) } ∈
      (close_ticket dbClosed (.adminClose 1) 1 200).1.tickets := by
  obtain ⟨h1, h2, h3⟩ :=
    c1_close_already_closed dbClosed 1 alice 1 200 (by decide) (by decide)
  exact ⟨h1, h2, h3 closedTicket (by decide) (by decide)⟩

/-! ## C2: authorization of the close operation -/

/-- C2, counterexample: user 99 is neither an admin nor the owner of open
ticket 1 (owned by user 10), yet the bare `close_` callback path closes the
ticket and reports success — no Forbidden, status changed. -/
theorem c2_counterexample :
    is_admin dbOpen 99 = false ∧
    (∃ t ∈ dbOpen.tickets, t.id = 1 ∧ t.user_id = 10 ∧ t.status = "open") ∧
    (99 : Nat) ≠ 10 ∧
    (close_ticket dbOpen (.bareClose 1) 99 200).2 = .closedConfirmation 1 ∧
    (close_ticket dbOpen (.bareClose 1) 99 200).1.tickets.map
      Ticket.status = ["closed"] := by
  decide

/-- C2 (amended): the `admin_close_` path denies non-admins without change,
and the user path denies non-owners without change while letting the owner
close their own open ticket; but the bare `close_` callback path applies the
closing UPDATE without any authorization check, so "only the requester or an
admin can close" does not hold of the operation as a whole. -/
theorem c2_close_authorization
    (db : DB) (tid : Nat) (u : TgUser) (fu : Nat) (now : Int) :
    (is_admin db fu = false →
      close_ticket db (.adminClose tid) fu now = (db, .accessDenied)) ∧
    ((∀ t ∈ db.tickets, t.id = tid → t.status = "open" → t.user_id ≠ u.id) →
      handle_user_close db tid u now = (db, .notFoundOrClosed)) ∧
    (∀ t : Ticket,
      db.tickets.find? (fun t => t.id == tid && t.status == "open") = some t →
      t.user_id = u.id →
      (handle_user_close db tid u now).2 = .closedConfirmation tid ∧
      { t with status := "closed", closed_at := some now } ∈
        (handle_user_close db tid u now).1.tickets) ∧
    (close_ticket db (.bareClose tid) fu now).2 = .closedConfirmation tid := by
  refine ⟨fun hna => by simp [close_ticket, hna], ?_, ?_, by simp [close_ticket]⟩
  · intro hno
    rcases hfind : db.tickets.find?
        (fun t => t.id == tid && t.status == "open") with _ | t
    · simp [handle_user_close, hfind]
    · have hp := List.find?_some hfind
      have hmem := List.mem_of_find?_eq_some hfind
      simp only [Bool.and_eq_true, beq_iff_eq] at hp
      have hne := hno t hmem hp.1 hp.2
      have : (t.user_id == u.id) = false := by simp [hne]
      simp [handle_user_close, hfind, this]
  · intro t hfind huid
    have hp := List.find?_some hfind
    have hmem := List.mem_of_find?_eq_some hfind
    simp only [Bool.and_eq_true, beq_iff_eq] at hp
    have : (t.user_id == u.id) = true := by simp [huid]
    refine ⟨by simp [handle_user_close, hfind, this], ?_⟩
    simp only [handle_user_close, hfind, this, if_true, updateClose]
    exact List.mem_map.mpr ⟨t, hmem, by simp [hp.1]⟩

/-- C2 witness: the amended statement exercised at the concrete open-ticket
store: the admin path denies non-admin 99, the user path denies non-owner
Mallory, and owner Alice's close succeeds. -/
theorem c2_witness :
    close_ticket dbOpen (.adminClose 1) 99 200 = (dbOpen, .accessDenied) ∧
    handle_user_close dbOpen 1 mallory 200 = (dbOpen, .notFoundOrClosed) ∧
    (handle_user_close dbOpen 1 alice 200).2 = .closedConfirmation 1 := by
  refine ⟨(c2_close_authorization dbOpen 1 mallory 99 200).1 (by decide),
    (c2_close_authorization dbOpen 1 mallory 99 200).2.1 (by decide),
    ((c2_close_authorization dbOpen 1 alice 99 200).2.2.1 openTicket
      (by decide) (by decide)).1⟩

/-! ## C3: the completed creation wizard -/

/-- C3, counterexample: a completed wizard run (category "Bug Report",
subject "Login fails", description supplied) creates exactly one open ticket
with those fields and returns the context to Idle, but inserts zero
TicketMessage rows — not the "exactly one initial TicketMessage" the claim
asserts. -/
theorem c3_counterexample :
    (create_ticket_final (initialDB 1) wizardCtx alice
      "Cannot log in on mobile" none 50 true).1.ticket_messages.length = 0 ∧
    (create_ticket_final (initialDB 1) wizardCtx alice
      "Cannot log in on mobile" none 50 true).2.2 = .created 1 ∧
    (create_ticket_final (initialDB 1) wizardCtx alice
      "Cannot log in on mobile" none 50 true).2.1 = .idle ∧
    (create_ticket_final (initialDB 1) wizardCtx alice
      "Cannot log in on mobile" none 50 true).1.tickets.map
      (fun t => (t.category, t.subject, t.description, t.status)) =
      [("Bug Report", "Login fails", "Cannot log in on mobile", "open")] := by
  decide

/-- C3 (amended): a completed wizard inserts exactly one new Ticket row with
status open carrying the chosen category, subject and description, and the
context returns to Idle — but no initial TicketMessage row is inserted (the
description lives on the ticket row itself). -/
theorem c3_create_ticket_final
    (db : DB) (ctx : UserCtx) (user : TgUser) (description : String)
    (file_id : Option String) (now : Int) (fok : Bool) (c s : String)
    (hc : ctx.ticket_category = some c) (hc0 : ¬c = "")
    (hs : ctx.ticket_subject = some s) (hs0 : ¬s = "") :
    (create_ticket_final db ctx user description file_id now fok).1.tickets =
      db.tickets ++
      [{ id := db.nextTicketId, user_id := user.id,
         username := user.display, category := c, subject := s,
         description := description, status := "open",
         assigned_admin := none, created_at := now, updated_at := now,
         closed_at := none }] ∧
    (create_ticket_final db ctx user description file_id now
      fok).1.ticket_messages = db.ticket_messages ∧
    (create_ticket_final db ctx user description file_id now fok).2.1 =
      .idle ∧
    (create_ticket_final db ctx user description file_id now fok).2.2 =
      .created db.nextTicketId := by
  have hcE : c.isEmpty = false := by
    rcases h : c.isEmpty with _ | _
    · rfl
    · exact absurd ((String.isEmpty_iff c).mp h) hc0
  have hsE : s.isEmpty = false := by
    rcases h : s.isEmpty with _ | _
    · rfl
    · exact absurd ((String.isEmpty_iff s).mp h) hs0
  cases file_id with
  | none => simp [create_ticket_final, pyFalsy, hc, hs, hcE, hsE]
  | some fid =>
      simp [create_ticket_final, pyFalsy, hc, hs, hcE, hsE,
        save_photo_tickets, save_photo_messages]

/-- C3 witness: the amended statement at the concrete wizard run. -/
theorem c3_witness :
    (create_ticket_final (initialDB 1) wizardCtx alice
      "Cannot log in on mobile" none 50 true).1.tickets =
      (initialDB 1).tickets ++
      [{ id := 1, user_id := 10, username := "alice",
         category := "Bug Report", subject := "Login fails",
         description := "Cannot log in on mobile", status := "open",
         assigned_admin := none, created_at := 50, updated_at := 50,
         closed_at := none }] ∧
    (create_ticket_final (initialDB 1) wizardCtx alice
      "Cannot log in on mobile" none 50 true).1.ticket_messages =
      (initialDB 1).ticket_messages := by
  obtain ⟨h1, h2, _, _⟩ := c3_create_ticket_final (initialDB 1) wizardCtx
    alice "Cannot log in on mobile" none 50 true "Bug Report" "Login fails"
    (by decide) (by decide) (by decide) (by decide)
  exact ⟨by rw [h1]; decide, h2⟩

/-! ## C5: cleanup touches only description and username of the ticket row -/

/-- C5: cleanup of a ticket modifies only the `description` and `username`
fields of ticket rows; row count, order, and every other field — id,
user_id, category, subject, status, assigned_admin, created_at, updated_at,
closed_at — are unchanged. -/
theorem c5_cleanup_frame (db : DB) (tid : Nat) :
    ((cleanup_ticket db tid).1.tickets.length = db.tickets.length) ∧
    ∀ i (h1 : i < db.tickets.length)
      (h2 : i < (cleanup_ticket db tid).1.tickets.length),
      ((cleanup_ticket db tid).1.tickets.get ⟨i, h2⟩).id =
        (db.tickets.get ⟨i, h1⟩).id ∧
      ((cleanup_ticket db tid).1.tickets.get ⟨i, h2⟩).user_id =
        (db.tickets.get ⟨i, h1⟩).user_id ∧
      ((cleanup_ticket db tid).1.tickets.get ⟨i, h2⟩).category =
        (db.tickets.get ⟨i, h1⟩).category ∧
      ((cleanup_ticket db tid).1.tickets.get ⟨i, h2⟩).subject =
        (db.tickets.get ⟨i, h1⟩).subject ∧
      ((cleanup_ticket db tid).1.tickets.get ⟨i, h2⟩).status =
        (db.tickets.get ⟨i, h1⟩).status ∧
      ((cleanup_ticket db tid).1.tickets.get ⟨i, h2⟩).assigned_admin =
        (db.tickets.get ⟨i, h1⟩).assigned_admin ∧
      ((cleanup_ticket db tid).1.tickets.get ⟨i, h2⟩).created_at =
        (db.tickets.get ⟨i, h1⟩).created_at ∧
      ((cleanup_ticket db tid).1.tickets.get ⟨i, h2⟩).updated_at =
        (db.tickets.get ⟨i, h1⟩).updated_at ∧
      ((cleanup_ticket db tid).1.tickets.get ⟨i, h2⟩).closed_at =
        (db.tickets.get ⟨i, h1⟩).closed_at := by
  have htk : (cleanup_ticket db tid).1.tickets = db.tickets.map (fun t =>
      if t.id == tid then
        { t with description := "[CLEANED]", username := "[ANONYMIZED]" }
      else t) := rfl
  constructor
  · rw [htk, List.length_map]
  · intro i h1 h2
    simp only [htk, List.get_eq_getElem, List.getElem_map]
    by_cases h : (db.tickets[i]).id == tid <;> simp [h]

/-- C5 witness: the frame at the concrete closed-ticket store, row 0. -/
theorem c5_witness :
    ((cleanup_ticket dbClosed 1).1.tickets.length = dbClosed.tickets.length) ∧
    ((cleanup_ticket dbClosed 1).1.tickets.get
        ⟨0, by decide⟩).closed_at =
      (dbClosed.tickets.get ⟨0, by decide⟩).closed_at ∧
    ((cleanup_ticket dbClosed 1).1.tickets.get ⟨0, by decide⟩).status =
      (dbClosed.tickets.get ⟨0, by decide⟩).status := by
  obtain ⟨h1, h2⟩ := c5_cleanup_frame dbClosed 1
  obtain ⟨_, _, _, _, hst, _, _, _, hca⟩ := h2 0 (by decide) (by decide)
  exact ⟨h1, hca, hst⟩

/-! ## C9: the main-admin check ignores the admin roster -/

/-- C9: the main-admin privilege check accepts exactly the
constructor-supplied id; an admin added at runtime through the admin-input
wizard lands in the roster with role `admin` and — being distinct from the
seed id — is never recognized as main admin, whatever the roster holds. -/
theorem c9_main_admin_check
    (main_admin_id : Nat) (db : DB) (ctx : UserCtx) (caller : Nat)
    (text : String) (uid : Nat)
    (hctx : ctx.adding_admin = true)
    (hcaller : caller = main_admin_id)
    (hparse : pyToNat? (pyStrip text) = some uid)
    (hnew : db.admins.any (fun a => a.user_id == uid) = false)
    (hne : uid ≠ main_admin_id) :
    (∀ u : Nat, is_main_admin main_admin_id u = true ↔ u = main_admin_id) ∧
    is_admin (handle_admin_input main_admin_id db ctx caller text).1 uid
      = true ∧
    (∃ a ∈ (handle_admin_input main_admin_id db ctx caller text).1.admins,
      a.user_id = uid ∧ a.role = "admin") ∧
    is_main_admin main_admin_id uid = false := by
  have hmain : is_main_admin main_admin_id caller = true := by
    simp [is_main_admin, hcaller]
  have hres : (handle_admin_input main_admin_id db ctx caller text).1 =
      { db with admins := db.admins ++
          [{ user_id := uid, username := "Admin_" ++ toString uid,
             role := "admin", added_by := caller }] } := by
    simp [handle_admin_input, hctx, hmain, hparse, hnew]
  refine ⟨fun u => by simp [is_main_admin], ?_, ?_, by simp [is_main_admin, hne]⟩
  · rw [hres]
    simp [is_admin]
  · rw [hres]
    exact ⟨{ user_id := uid, username := "Admin_" ++ toString uid,
             role := "admin", added_by := caller },
           by simp, rfl, rfl⟩

/-- C9 witness: adding user 42 at the fresh store with main admin 1. -/
theorem c9_witness :
    is_admin (handle_admin_input 1 (initialDB 1)
      { UserCtx.idle with adding_admin := true } 1 "42").1 42 = true ∧
    is_main_admin 1 42 = false := by
  obtain ⟨_, h2, _, h4⟩ := c9_main_admin_check 1 (initialDB 1)
    { UserCtx.idle with adding_admin := true } 1 "42" 42
    (by decide) (by decide) (by decide) (by decide) (by decide)
  exact ⟨h2, h4⟩

/-! ## C10: reserved keyboard labels are ignored by the text handler -/

/-- C10: when the inbound text equals one of the four reserved keyboard
labels, the general text dispatcher returns immediately: the store and the
caller's conversational context are unchanged whatever wizard state or open
tickets exist, and no message is persisted. -/
theorem c10_keyboard_labels_ignored
    (main_admin_id : Nat) (db : DB) (ctx : UserCtx) (user : TgUser)
    (text : String) (now : Int) (fok : Bool)
    (h : text ∈ keyboardLabels) :
    handle_admin_input_enhanced main_admin_id db ctx user text now fok =
      (db, ctx, .ignoredLabel) := by
  have hc : keyboardLabels.contains text = true := List.elem_eq_true_of_mem h
  simp [handle_admin_input_enhanced, hc, h]

/-- C10 witness: the "Close Ticket" label at a store with an open ticket and
a wizard in progress. -/
theorem c10_witness :
    handle_admin_input_enhanced 1 dbOpen wizardCtx alice
      "🔒 Close Ticket" 60 true = (dbOpen, wizardCtx, .ignoredLabel) :=
  c10_keyboard_labels_ignored 1 dbOpen wizardCtx alice
    "🔒 Close Ticket" 60 true (by decide)

/-! ## Routing of bare follow-up messages (C6, C7) -/

theorem pickLatest_mem (t : Ticket) (ts : List Ticket) :
    pickLatest t ts ∈ t :: ts := by
  induction ts generalizing t with
  | nil => simp [pickLatest]
  | cons u us ih =>
      have hstep : pickLatest t (u :: us) =
          pickLatest (if t.updated_at < u.updated_at then u else t) us := rfl
      rw [hstep]
      have h := ih (if t.updated_at < u.updated_at then u else t)
      by_cases hlt : t.updated_at < u.updated_at
      · simp only [hlt, if_true] at h ⊢
        exact List.mem_cons.mpr (Or.inr h)
      · simp only [hlt, if_false] at h ⊢
        rcases List.mem_cons.mp h with h0 | h0
        · exact List.mem_cons.mpr (Or.inl h0)
        · exact List.mem_cons.mpr (Or.inr (List.mem_cons.mpr (Or.inr h0)))

theorem pickLatest_ge (t : Ticket) (ts : List Ticket) :
    ∀ u ∈ t :: ts, u.updated_at ≤ (pickLatest t ts).updated_at := by
  induction ts generalizing t with
  | nil =>
      intro u hu
      rcases List.mem_cons.mp hu with rfl | h0
      · exact le_refl _
      · cases h0
  | cons v vs ih =>
      intro u hu
      have hstep : pickLatest t (v :: vs) =
          pickLatest (if t.updated_at < v.updated_at then v else t) vs := rfl
      rw [hstep]
      have hbase : t.updated_at ≤
          (if t.updated_at < v.updated_at then v else t).updated_at := by
        by_cases hlt : t.updated_at < v.updated_at
        · simp [hlt, le_of_lt hlt]
        · simp [hlt]
      have hv : v.updated_at ≤
          (if t.updated_at < v.updated_at then v else t).updated_at := by
        by_cases hlt : t.updated_at < v.updated_at
        · simp [hlt]
        · simp [hlt, le_of_not_lt hlt]
      have hhead := ih (if t.updated_at < v.updated_at then v else t)
        (if t.updated_at < v.updated_at then v else t)
        (List.mem_cons_self _ _)
      rcases List.mem_cons.mp hu with rfl | h0
      · exact le_trans hbase hhead
      · rcases List.mem_cons.mp h0 with rfl | h1
        · exact le_trans hv hhead
        · exact ih _ u (List.mem_cons.mpr (Or.inr h1))

theorem find_active_ticket_of_open (db : DB) (uid : Nat)
    (h : ∃ t ∈ db.tickets, t.user_id = uid ∧ t.status = "open") :
    ∃ tk ∈ db.tickets, tk.user_id = uid ∧ tk.status = "open" ∧
      (∀ u ∈ db.tickets, u.user_id = uid → u.status = "open" →
        u.updated_at ≤ tk.updated_at) ∧
      find_active_ticket db uid = some tk.id := by
  obtain ⟨t0, ht0, hu0, hs0⟩ := h
  rcases hfl : db.tickets.filter
      (fun t => t.user_id == uid && t.status == "open") with _ | ⟨t, ts⟩
  · exact absurd (hfl ▸ List.mem_filter.mpr ⟨ht0, by simp [hu0, hs0]⟩)
      (List.not_mem_nil t0)
  · refine ⟨pickLatest t ts, ?_, ?_, ?_, ?_, ?_⟩
    · exact List.mem_of_mem_filter (hfl ▸ pickLatest_mem t ts)
    · have := (List.mem_filter.mp (hfl ▸ pickLatest_mem t ts)).2
      simp only [Bool.and_eq_true, beq_iff_eq] at this
      exact this.1
    · have := (List.mem_filter.mp (hfl ▸ pickLatest_mem t ts)).2
      simp only [Bool.and_eq_true, beq_iff_eq] at this
      exact this.2
    · intro u hu huu hus
      exact pickLatest_ge t ts u
        (hfl ▸ List.mem_filter.mpr ⟨hu, by simp [huu, hus]⟩)
    · simp [find_active_ticket, hfl]

theorem find_active_ticket_none (db : DB) (uid : Nat)
    (h : ∀ t ∈ db.tickets, t.user_id = uid → t.status ≠ "open") :
    find_active_ticket db uid = none := by
  have hfl : db.tickets.filter
      (fun t => t.user_id == uid && t.status == "open") = [] := by
    apply List.filter_eq_nil_iff.mpr
    intro t ht
    by_cases hut : t.user_id = uid
    · simp [hut, h t ht hut]
    · simp [hut]
  simp [find_active_ticket, hfl]

theorem handle_ticket_message_found (db : DB) (user : TgUser)
    (ev : InboundMsg) (now : Int) (fok : Bool) (tid : Nat)
    (hfind : find_active_ticket db user.id = some tid) :
    (handle_ticket_message db user ev now fok).2 = .added tid ∧
    ∃ m : TicketMessage,
      (handle_ticket_message db user ev now fok).1.ticket_messages =
        db.ticket_messages ++ [m] ∧
      m.ticket_id = tid ∧ m.user_id = user.id ∧ m.is_admin = false := by
  cases ev with
  | text s =>
      exact ⟨by simp [handle_ticket_message, hfind],
        { id := db.nextMessageId, ticket_id := tid, user_id := user.id,
          username := user.display, message := s, message_type := "text",
          file_id := none, is_admin := false, timestamp := now },
        by simp [handle_ticket_message, hfind, insertMessage, bumpUpdatedAt],
        rfl, rfl, rfl⟩
  | photo fid cap =>
      refine ⟨by simp [handle_ticket_message, hfind],
        { id := db.nextMessageId, ticket_id := tid, user_id := user.id,
          username := user.display,
          message := captionOr cap "📸 User sent an image",
          message_type := "photo", file_id := some fid, is_admin := false,
          timestamp := now }, ?_, rfl, rfl, rfl⟩
      simp [handle_ticket_message, hfind, insertMessage, bumpUpdatedAt,
        save_photo_messages, save_photo_nextMessageId]

/-! ## C6: bare follow-up messages go to the latest open ticket -/

/-- C6: a bare message with no wizard in progress is appended (as exactly
one new `ticket_messages` row) to an open ticket of the sender whose
`updated_at` is maximal among the sender's open tickets, whenever one
exists; a sender whose tickets are all closed (or who has none) causes no
write at all. -/
theorem c6_followup_routing (db : DB) (user : TgUser) (ev : InboundMsg)
    (now : Int) (fok : Bool) :
    ((∃ t ∈ db.tickets, t.user_id = user.id ∧ t.status = "open") →
      ∃ tk ∈ db.tickets, tk.user_id = user.id ∧ tk.status = "open" ∧
        (∀ u ∈ db.tickets, u.user_id = user.id → u.status = "open" →
          u.updated_at ≤ tk.updated_at) ∧
        (handle_ticket_message db user ev now fok).2 = .added tk.id ∧
        ∃ m : TicketMessage,
          (handle_ticket_message db user ev now fok).1.ticket_messages =
            db.ticket_messages ++ [m] ∧
          m.ticket_id = tk.id ∧ m.user_id = user.id) ∧
    ((∀ t ∈ db.tickets, t.user_id = user.id → t.status ≠ "open") →
      handle_ticket_message db user ev now fok = (db, .ignored)) := by
  constructor
  · intro h
    obtain ⟨tk, htk, hu, hs, hge, hfind⟩ := find_active_ticket_of_open db
      user.id h
    obtain ⟨hout, m, hm, hmt, hmu, _⟩ := handle_ticket_message_found db user
      ev now fok tk.id hfind
    exact ⟨tk, htk, hu, hs, hge, hout, m, hm, hmt, hmu⟩
  · intro h
    have hfind := find_active_ticket_none db user.id h
    cases ev <;> simp [handle_ticket_message, hfind]

/-- C6 witness: Alice's text lands on her open ticket 1 in `dbOpen`;
in `dbClosed` (all her tickets closed) nothing is written. -/
theorem c6_witness :
    handle_ticket_message dbClosed alice (.text "is this fixed?") 60 true =
      (dbClosed, .ignored) ∧
    (handle_ticket_message dbOpen alice (.text "is this fixed?") 60
      true).2 = .added 1 := by
  refine ⟨(c6_followup_routing dbClosed alice (.text "is this fixed?") 60
    true).2 (by decide), ?_⟩
  obtain ⟨tk, htk, -, -, -, hout, -⟩ :=
    (c6_followup_routing dbOpen alice (.text "is this fixed?") 60 true).1
      ⟨openTicket, by decide, rfl, rfl⟩
  have htk1 : tk = openTicket := by
    have h1 : dbOpen.tickets = [openTicket] := rfl
    rw [h1] at htk
    simpa using htk
  rw [hout, htk1]
  decide

/-! ## C7: attachment storage failure does not abort the message append -/

/-- C7: when the sender has an active ticket and the photo download fails
(`fetchOk = false`), the message row is still inserted (exactly one new
`ticket_messages` row of type photo) and the handler still reports the
append as successful; nothing is added to the photo table or the disk — the
failure is only logged. -/
theorem c7_storage_failure_nonfatal (db : DB) (user : TgUser)
    (fid : String) (cap : Option String) (now : Int)
    (hopen : ∃ t ∈ db.tickets, t.user_id = user.id ∧ t.status = "open") :
    ∃ tid,
      (handle_ticket_message db user (.photo fid cap) now false).2 =
        .added tid ∧
      (∃ m : TicketMessage,
        (handle_ticket_message db user (.photo fid cap) now
          false).1.ticket_messages = db.ticket_messages ++ [m] ∧
        m.ticket_id = tid ∧ m.message_type = "photo" ∧
        m.file_id = some fid) ∧
      (handle_ticket_message db user (.photo fid cap) now
        false).1.ticket_photos = db.ticket_photos ∧
      (handle_ticket_message db user (.photo fid cap) now false).1.files =
        db.files := by
  obtain ⟨tk, -, -, -, -, hfind⟩ := find_active_ticket_of_open db user.id
    hopen
  refine ⟨tk.id, by simp [handle_ticket_message, hfind], ?_, ?_, ?_⟩
  · refine ⟨{ id := db.nextMessageId, ticket_id := tk.id,
              user_id := user.id, username := user.display,
              message := captionOr cap "📸 User sent an image",
              message_type := "photo", file_id := some fid,
              is_admin := false, timestamp := now }, ?_, rfl, rfl, rfl⟩
    simp [handle_ticket_message, hfind, insertMessage, bumpUpdatedAt,
      save_photo_to_storage]
  · simp [handle_ticket_message, hfind, insertMessage, bumpUpdatedAt,
      save_photo_to_storage]
  · simp [handle_ticket_message, hfind, insertMessage, bumpUpdatedAt,
      save_photo_to_storage]

/-- C7 witness: the failed-download photo append at the concrete open
ticket. -/
theorem c7_witness :
    (handle_ticket_message dbOpen alice (.photo "F1" none) 60 false).2 =
      .added 1 ∧
    (handle_ticket_message dbOpen alice (.photo "F1" none) 60
      false).1.ticket_photos = dbOpen.ticket_photos := by
  obtain ⟨tid, hout, -, hph, -⟩ := c7_storage_failure_nonfatal dbOpen alice
    "F1" none 60 ⟨openTicket, by decide, rfl, rfl⟩
  have : tid = 1 := by
    have h1 : find_active_ticket dbOpen alice.id = some 1 := by decide
    have h2 : (handle_ticket_message dbOpen alice (.photo "F1" none) 60
        false).2 = .added 1 := by
      simp [handle_ticket_message, h1]
    rw [h2] at hout
    cases hout
    rfl
  exact ⟨this ▸ hout, hph⟩

/-! ## C8: the closed_at / status invariant over all reachable stores -/

theorem inv_of_tickets_eq {db db' : DB} (h : db'.tickets = db.tickets)
    (hI : closedInvariant db) : closedInvariant db' := by
  intro t ht
  exact hI t (h ▸ ht)

theorem inv_map_preserving {db db' : DB} {f : Ticket → Ticket}
    (htk : db'.tickets = db.tickets.map f)
    (hf : ∀ t, (f t).closed_at = t.closed_at ∧ (f t).status = t.status)
    (hI : closedInvariant db) : closedInvariant db' := by
  intro t ht
  rw [htk] at ht
  obtain ⟨u, hu, rfl⟩ := List.mem_map.mp ht
  rw [(hf u).1, (hf u).2]
  exact hI u hu

theorem inv_updateClose (db : DB) (tid : Nat) (now : Int)
    (hI : closedInvariant db) : closedInvariant (updateClose db tid now) := by
  intro t ht
  obtain ⟨u, hu, rfl⟩ := List.mem_map.mp ht
  by_cases h : u.id == tid
  · simp [h]
  · simp only [h, if_false]
    exact hI u hu

theorem inv_bumpUpdatedAt (db : DB) (tid : Nat) (now : Int)
    (hI : closedInvariant db) : closedInvariant (bumpUpdatedAt db tid now) := by
  refine inv_map_preserving rfl (fun t => ?_) hI
  by_cases h : t.id == tid <;> simp [h]

theorem inv_create (db : DB) (ctx : UserCtx) (user : TgUser) (d : String)
    (fid : Option String) (now : Int) (fok : Bool)
    (hI : closedInvariant db) :
    closedInvariant (create_ticket_final db ctx user d fid now fok).1 := by
  intro t ht
  unfold create_ticket_final at ht
  by_cases hcond : (pyFalsy ctx.ticket_category ||
      pyFalsy ctx.ticket_subject) = true
  · rw [if_pos hcond] at ht
    exact hI t ht
  · rw [if_neg hcond] at ht
    have ht2 : t ∈ db.tickets ++
        [{ id := db.nextTicketId, user_id := user.id,
           username := user.display, category := ctx.ticket_category.getD "",
           subject := ctx.ticket_subject.getD "", description := d,
           status := "open", assigned_admin := none, created_at := now,
           updated_at := now, closed_at := none }] := by
      cases fid with
      | none => exact ht
      | some f => rw [save_photo_tickets] at ht; exact ht
    rcases List.mem_append.mp ht2 with h0 | h0
    · exact hI t h0
    · rw [List.mem_singleton] at h0
      subst h0
      simp

theorem inv_handle_ticket_message (db : DB) (user : TgUser)
    (ev : InboundMsg) (now : Int) (fok : Bool) (hI : closedInvariant db) :
    closedInvariant (handle_ticket_message db user ev now fok).1 := by
  cases hfind : find_active_ticket db user.id with
  | none =>
      have hres : (handle_ticket_message db user ev now fok).1 = db := by
        cases ev <;> simp [handle_ticket_message, hfind]
      rw [hres]
      exact hI
  | some tid =>
      have htk : (handle_ticket_message db user ev now fok).1.tickets =
          db.tickets.map (fun t =>
            if t.id == tid then { t with updated_at := now } else t) := by
        cases ev <;>
          simp [handle_ticket_message, hfind, insertMessage, bumpUpdatedAt,
            save_photo_tickets]
      refine inv_map_preserving htk (fun t => ?_) hI
      by_cases h : t.id == tid <;> simp [h]

theorem inv_handle_admin_reply (db : DB) (ctx : UserCtx) (user : TgUser)
    (ev : InboundMsg) (now : Int) (fok : Bool) (hI : closedInvariant db) :
    closedInvariant (handle_admin_reply db ctx user ev now fok).1 := by
  cases hrep : ctx.replying_to_ticket with
  | none =>
      have hres : (handle_admin_reply db ctx user ev now fok).1 = db := by
        simp [handle_admin_reply, hrep]
      rw [hres]
      exact hI
  | some tid =>
      cases hfind : db.tickets.find? (fun t => t.id == tid) with
      | none =>
          have hres : (handle_admin_reply db ctx user ev now fok).1 = db := by
            simp [handle_admin_reply, hrep, hfind]
          rw [hres]
          exact hI
      | some t0 =>
          have htk : (handle_admin_reply db ctx user ev now fok).1.tickets =
              db.tickets.map (fun t =>
                if t.id == tid then { t with updated_at := now } else t) := by
            cases ev <;>
              simp [handle_admin_reply, hrep, hfind, insertMessage,
                bumpUpdatedAt, save_photo_tickets]
          refine inv_map_preserving htk (fun t => ?_) hI
          by_cases h : t.id == tid <;> simp [h]

theorem inv_take (db : DB) (fu tid : Nat) (now : Int)
    (hI : closedInvariant db) :
    closedInvariant (take_ticket db fu tid now).1 := by
  unfold take_ticket
  by_cases h : is_admin db fu
  · rw [if_pos h]
    refine inv_map_preserving rfl (fun t => ?_) hI
    by_cases h2 : t.id == tid <;> simp [h2]
  · rw [if_neg h]
    exact hI

theorem inv_close_ticket (db : DB) (cb : CloseCallback) (fu : Nat)
    (now : Int) (hI : closedInvariant db) :
    closedInvariant (close_ticket db cb fu now).1 := by
  cases cb with
  | adminClose tid =>
      by_cases h : is_admin db fu
      · have hres : (close_ticket db (.adminClose tid) fu now).1 =
            updateClose db tid now := by
          simp [close_ticket, h]
        rw [hres]
        exact inv_updateClose db tid now hI
      · have hres : (close_ticket db (.adminClose tid) fu now).1 = db := by
          simp [close_ticket, h]
        rw [hres]
        exact hI
  | bareClose tid => exact inv_updateClose db tid now hI

theorem inv_handle_user_close (db : DB) (tid : Nat) (u : TgUser) (now : Int)
    (hI : closedInvariant db) :
    closedInvariant (handle_user_close db tid u now).1 := by
  unfold handle_user_close
  cases hfind : db.tickets.find?
      (fun t => t.id == tid && t.status == "open") with
  | none => exact hI
  | some t0 =>
      by_cases h : t0.user_id == u.id
      · simp only [h, if_true]
        exact inv_updateClose db tid now hI
      · simp only [h, if_false]
        exact hI

theorem inv_cleanupStep (cutoff now : Int) (db : DB) (tid : Nat)
    (hI : closedInvariant db) :
    closedInvariant (cleanupStep cutoff now db tid) := by
  refine inv_map_preserving
    (rfl : (cleanupStep cutoff now db tid).tickets = db.tickets.map
      (fun t => if t.id == tid then anonymize t else t))
    (fun t => ?_) hI
  by_cases h : t.id == tid <;> simp [h]

theorem inv_cleanup_foldl (cutoff now : Int) (l : List Nat) :
    ∀ db : DB, closedInvariant db →
      closedInvariant (l.foldl (cleanupStep cutoff now) db) := by
  induction l with
  | nil => exact fun db h => h
  | cons x xs ih =>
      exact fun db h => ih _ (inv_cleanupStep cutoff now db x h)

theorem inv_run_cleanup (db : DB) (now : Int) (hI : closedInvariant db) :
    closedInvariant (run_cleanup_job db now) := by
  unfold run_cleanup_job
  exact inv_cleanup_foldl _ _ _ db hI

theorem handle_admin_input_tickets (mid : Nat) (db : DB) (ctx : UserCtx)
    (caller : Nat) (text : String) :
    (handle_admin_input mid db ctx caller text).1.tickets = db.tickets := by
  unfold handle_admin_input
  split
  · rfl
  · split
    · rfl
    · split
      · rfl
      · split <;> rfl

theorem inv_handle_admin_input (mid : Nat) (db : DB) (ctx : UserCtx)
    (caller : Nat) (text : String) (hI : closedInvariant db) :
    closedInvariant (handle_admin_input mid db ctx caller text).1 :=
  inv_of_tickets_eq (handle_admin_input_tickets mid db ctx caller text) hI

theorem handle_category_description_tickets (mid : Nat) (db : DB)
    (ctx : UserCtx) (caller : Nat) (text : String) :
    (handle_category_description mid db ctx caller text).1.tickets =
      db.tickets := by
  unfold handle_category_description
  split
  · rfl
  · split
    · rfl
    · dsimp only
      split
      · rfl
      · split <;> rfl

theorem inv_handle_category_description (mid : Nat) (db : DB)
    (ctx : UserCtx) (caller : Nat) (text : String)
    (hI : closedInvariant db) :
    closedInvariant (handle_category_description mid db ctx caller text).1 :=
  inv_of_tickets_eq
    (handle_category_description_tickets mid db ctx caller text) hI

/-- C8: every store reachable from a fresh installation through the
lifecycle entry points (creation, user and admin message appends,
assignment, the three closing paths, cleanup, roster and category inserts)
satisfies: a ticket's `closed_at` is non-null exactly when its status is
`closed`. -/
theorem c8_reachable_closed_invariant (mid : Nat) (db : DB)
    (h : Reachable mid db) : closedInvariant db := by
  induction h with
  | init =>
      intro t ht
      cases ht
  | step op hr ih =>
      cases op with
      | opCreate ctx user d fid now fok => exact inv_create _ _ _ _ _ _ _ ih
      | opUserMsg user ev now fok =>
          exact inv_handle_ticket_message _ _ _ _ _ ih
      | opAdminReply ctx user ev now fok =>
          exact inv_handle_admin_reply _ _ _ _ _ _ ih
      | opTake fu tid now => exact inv_take _ _ _ _ ih
      | opCloseCb cb fu now => exact inv_close_ticket _ _ _ _ ih
      | opUserClose tid user now => exact inv_handle_user_close _ _ _ _ ih
      | opCleanup now => exact inv_run_cleanup _ _ ih
      | opAddAdmin ctx caller text => exact inv_handle_admin_input _ _ _ _ _ ih
      | opAddCategory ctx caller text =>
          exact inv_handle_category_description _ _ _ _ _ ih

/-- C8 witness: the invariant instantiated at the ticket created by one
wizard run from the fresh store. -/
theorem c8_witness :
    createdTicket.closed_at ≠ none ↔ createdTicket.status = "closed" :=
  c8_reachable_closed_invariant 1 reachedDB
    (Reachable.step _ Reachable.init) createdTicket (by decide)

/-! ## C4: the retention/cleanup run, one ticket at a time -/

theorem filter_ne_filter_eq {α : Type} (k : α → Nat) (l : List α)
    {a b : Nat} (h : b ≠ a) :
    (l.filter (fun x => k x != a)).filter (fun x => k x == b) =
      l.filter (fun x => k x == b) := by
  rw [List.filter_filter]
  congr 1
  funext x
  by_cases hx : k x = b
  · have hxa : k x ≠ a := by rw [hx]; exact h
    simp [hx, hxa, h]
  · simp [hx]

theorem filter_ne_filter_self {α : Type} (k : α → Nat) (l : List α)
    (a : Nat) :
    (l.filter (fun x => k x != a)).filter (fun x => k x == a) = [] := by
  rw [List.filter_filter]
  apply List.filter_eq_nil_iff.mpr
  intro x hx
  by_cases hxa : k x = a <;> simp [hxa]

theorem filter_id_map (l : List Ticket) (g : Ticket → Ticket)
    (hg : ∀ t, (g t).id = t.id) (b : Nat) :
    (l.map g).filter (fun t => t.id == b) =
      (l.filter (fun t => t.id == b)).map g := by
  induction l with
  | nil => rfl
  | cons x xs ih =>
      by_cases h : x.id = b <;>
        simp [List.map_cons, List.filter_cons, hg, h, ih]

theorem foldl_delStep_fst_preserve (photos : List TicketPhoto)
    (fs : List String) (c : Nat) (p : String) (hp : p ∈ fs)
    (hnot : p ∉ photos.map (fun q => q.file_path)) :
    p ∈ (photos.foldl delStep (fs, c)).1 := by
  induction photos generalizing fs c with
  | nil => exact hp
  | cons x xs ih =>
      simp only [List.map_cons, List.mem_cons, not_or] at hnot
      rw [List.foldl_cons]
      by_cases hc : x.file_path ∈ fs
      · have hstep : delStep (fs, c) x = (fs.erase x.file_path, c + 1) := by
          simp [delStep, hc]
        rw [hstep]
        exact ih _ _ ((List.mem_erase_of_ne hnot.1).mpr hp) hnot.2
      · have hstep : delStep (fs, c) x = (fs, c) := by
          simp [delStep, hc]
        rw [hstep]
        exact ih _ _ hp hnot.2

theorem foldl_delStep_count (photos : List TicketPhoto) (fs : List String)
    (c : Nat) (hn : (photos.map (fun q => q.file_path)).Nodup)
    (hin : ∀ q ∈ photos, q.file_path ∈ fs) :
    (photos.foldl delStep (fs, c)).2 = c + photos.length := by
  induction photos generalizing fs c with
  | nil => simp
  | cons x xs ih =>
      simp only [List.map_cons, List.nodup_cons] at hn
      have hc : x.file_path ∈ fs := hin x (List.mem_cons_self x xs)
      have hstep : delStep (fs, c) x = (fs.erase x.file_path, c + 1) := by
        simp [delStep, hc]
      rw [List.foldl_cons, hstep]
      have hin2 : ∀ q ∈ xs, q.file_path ∈ fs.erase x.file_path := by
        intro q hq
        have hqp : q.file_path ≠ x.file_path := by
          intro he
          exact hn.1 (he ▸ List.mem_map.mpr ⟨q, hq, rfl⟩)
        exact (List.mem_erase_of_ne hqp).mpr
          (hin q (List.mem_cons_of_mem x hq))
      rw [ih _ _ hn.2 hin2, List.length_cons]
      omega

theorem cleanupStep_messages (cutoff now : Int) (db : DB) (tid : Nat) :
    (cleanupStep cutoff now db tid).ticket_messages =
      db.ticket_messages.filter (fun m => m.ticket_id != tid) := rfl

theorem cleanupStep_photos (cutoff now : Int) (db : DB) (tid : Nat) :
    (cleanupStep cutoff now db tid).ticket_photos =
      db.ticket_photos.filter (fun p => p.ticket_id != tid) := rfl

theorem cleanupStep_tickets (cutoff now : Int) (db : DB) (tid : Nat) :
    (cleanupStep cutoff now db tid).tickets =
      db.tickets.map (fun t => if t.id == tid then anonymize t else t) := rfl

theorem cleanupStep_files (cutoff now : Int) (db : DB) (tid : Nat) :
    (cleanupStep cutoff now db tid).files =
      (deleteFiles (photosFor db tid) db.files).1 := rfl

theorem cleanupStep_jobs (cutoff now : Int) (db : DB) (tid : Nat) :
    (cleanupStep cutoff now db tid).cleanup_jobs =
      db.cleanup_jobs ++
        [{ id := db.nextJobId, ticket_id := tid, scheduled_date := cutoff,
           executed_date := some now,
           files_cleaned := (deleteFiles (photosFor db tid) db.files).2,
           status := "completed" }] := rfl

theorem C4Inv_step (P : List TicketPhoto) (M : List TicketMessage)
    (J : List CleanupJob) (R : List Ticket) (tid tid' : Nat)
    (hne : tid' ≠ tid) (cutoff now : Int) (db : DB)
    (h : C4Inv P M J R tid db) :
    C4Inv P M J R tid (cleanupStep cutoff now db tid') := by
  obtain ⟨hM, hP, hJ, hR, hLive, hSep⟩ := h
  have hne2 : tid ≠ tid' := fun he => hne he.symm
  refine ⟨?_, ?_, ?_, ?_, ?_, ?_⟩
  · show ((db.ticket_messages.filter (fun m => m.ticket_id != tid')).filter
      (fun m => m.ticket_id == tid)) = M
    rw [filter_ne_filter_eq (fun m : TicketMessage => m.ticket_id) _ hne2]
    exact hM
  · show ((db.ticket_photos.filter (fun p => p.ticket_id != tid')).filter
      (fun p => p.ticket_id == tid)) = P
    rw [filter_ne_filter_eq (fun p : TicketPhoto => p.ticket_id) _ hne2]
    exact hP
  · show ((db.cleanup_jobs ++ _).filter (fun j => j.ticket_id == tid)) = J
    rw [List.filter_append]
    have hsingle : ∀ j : CleanupJob, j.ticket_id = tid' →
        List.filter (fun j => j.ticket_id == tid) [j] = [] := by
      intro j hj
      simp [List.filter_cons, hj, hne]
    rw [hsingle _ rfl, List.append_nil]
    exact hJ
  · show ((db.tickets.map (fun t => if t.id == tid' then anonymize t
      else t)).filter (fun t => t.id == tid)) = R
    rw [filter_id_map]
    · rw [show (db.tickets.filter (fun t => t.id == tid)).map
          (fun t => if t.id == tid' then anonymize t else t) =
          (db.tickets.filter (fun t => t.id == tid)).map id from ?_,
        List.map_id]
      · exact hR
      · apply List.map_congr_left
        intro a ha
        have : a.id = tid := by
          have := (List.mem_filter.mp ha).2
          simpa using this
        simp [this, hne2]
    · intro t
      by_cases ht : t.id == tid' <;> simp [ht, anonymize]
  · intro p hp
    rw [cleanupStep_files]
    refine foldl_delStep_fst_preserve _ _ _ _ (hLive p hp) ?_
    intro hcontra
    obtain ⟨q, hq, hqp⟩ := List.mem_map.mp hcontra
    have hqmem := List.mem_of_mem_filter hq
    have hqid : q.ticket_id = tid' := by
      have := (List.mem_filter.mp hq).2
      simpa using this
    exact hSep q hqmem (hqid ▸ hne) (hqp ▸ hp)
  · intro q hq hqt
    rw [cleanupStep_photos] at hq
    exact hSep q (List.mem_of_mem_filter hq) hqt

theorem C4Inv_foldl (P : List TicketPhoto) (M : List TicketMessage)
    (J : List CleanupJob) (R : List Ticket) (tid : Nat) (cutoff now : Int)
    (l : List Nat) (hl : tid ∉ l) :
    ∀ db : DB, C4Inv P M J R tid db →
      C4Inv P M J R tid (l.foldl (cleanupStep cutoff now) db) := by
  induction l with
  | nil => exact fun db h => h
  | cons x xs ih =>
      intro db h
      simp only [List.mem_cons, not_or] at hl
      rw [List.foldl_cons]
      exact ih hl.2 _
        (C4Inv_step P M J R tid x (fun he => hl.1 he.symm) cutoff now db h)

theorem cleanupStep_self (cutoff now : Int) (db : DB) (tid : Nat)
    (hnodup : ((photosFor db tid).map (fun q => q.file_path)).Nodup)
    (hlive : ∀ q ∈ photosFor db tid, q.file_path ∈ db.files) :
    msgsFor (cleanupStep cutoff now db tid) tid = [] ∧
    photosFor (cleanupStep cutoff now db tid) tid = [] ∧
    jobsFor (cleanupStep cutoff now db tid) tid =
      jobsFor db tid ++
        [{ id := db.nextJobId, ticket_id := tid, scheduled_date := cutoff,
           executed_date := some now,
           files_cleaned := (photosFor db tid).length,
           status := "completed" }] ∧
    rowsFor (cleanupStep cutoff now db tid) tid =
      (rowsFor db tid).map anonymize := by
  have hcount : (deleteFiles (photosFor db tid) db.files).2 =
      (photosFor db tid).length := by
    unfold deleteFiles
    rw [foldl_delStep_count _ _ _ hnodup hlive, Nat.zero_add]
  refine ⟨?_, ?_, ?_, ?_⟩
  · exact filter_ne_filter_self (fun m : TicketMessage => m.ticket_id)
      db.ticket_messages tid
  · exact filter_ne_filter_self (fun p : TicketPhoto => p.ticket_id)
      db.ticket_photos tid
  · unfold jobsFor
    rw [cleanupStep_jobs, List.filter_append, hcount]
    simp [List.filter_cons]
  · unfold rowsFor
    rw [cleanupStep_tickets,
      filter_id_map _ _ (fun t => by by_cases h : t.id == tid <;>
        simp [h, anonymize]) tid]
    apply List.map_congr_left
    intro a ha
    have hid : a.id = tid := by
      have := (List.mem_filter.mp ha).2
      simpa using this
    simp [hid]

theorem run_cleanup_noop_for (db : DB) (now : Int) (tid : Nat)
    (hdone : ∃ j ∈ db.cleanup_jobs, j.status = "completed" ∧
      j.ticket_id = tid)
    (hphot : photosFor db tid = []) :
    msgsFor (run_cleanup_job db now) tid = msgsFor db tid ∧
    photosFor (run_cleanup_job db now) tid = [] ∧
    jobsFor (run_cleanup_job db now) tid = jobsFor db tid ∧
    rowsFor (run_cleanup_job db now) tid = rowsFor db tid := by
  obtain ⟨j0, hj0, hj0s, hj0t⟩ := hdone
  have hnotin : tid ∉ (db.tickets.filter
      (cleanupEligible db (now - retentionSeconds))).map
      (fun t => t.id) := by
    intro hmem
    obtain ⟨t2, ht2, ht2id⟩ := List.mem_map.mp hmem
    have helig := (List.mem_filter.mp ht2).2
    unfold cleanupEligible at helig
    simp only [Bool.and_eq_true, Bool.not_eq_true', List.any_eq_false]
      at helig
    have hcontra := helig.2 j0 hj0
    rw [ht2id] at hcontra
    simp [hj0s, hj0t] at hcontra
  have hinv := C4Inv_foldl [] (msgsFor db tid) (jobsFor db tid)
    (rowsFor db tid) tid (now - retentionSeconds) now _ hnotin db
    ⟨rfl, hphot, rfl, rfl, by simp, by simp⟩
  exact ⟨hinv.1, hinv.2.1, hinv.2.2.1, hinv.2.2.2.1⟩

/-- C4: one cleanup run on a ticket closed longer than the retention window
ago, carrying N stored attachments (all still on disk, paths unique), with
no completed cleanup record yet: afterwards the ticket has zero message
rows, zero photo rows, its description and username overwritten with the
anonymization sentinels, and exactly one completed CleanupJob row whose
files_cleaned is N; a second run changes nothing further for that ticket. -/
theorem c4_retention_cleanup (db : DB) (now : Int) (t : Ticket)
    (hmem : t ∈ db.tickets)
    (hids : (db.tickets.map (fun t => t.id)).Nodup)
    (hstatus : t.status = "closed")
    (hclosed : ∃ c, t.closed_at = some c ∧ c < now - retentionSeconds)
    (hnojob : ∀ j ∈ db.cleanup_jobs, j.ticket_id = t.id →
      j.status ≠ "completed")
    (hpaths : (db.ticket_photos.map (fun p => p.file_path)).Nodup)
    (hlive : ∀ q ∈ photosFor db t.id, q.file_path ∈ db.files) :
    msgsFor (run_cleanup_job db now) t.id = [] ∧
    photosFor (run_cleanup_job db now) t.id = [] ∧
    (∀ t' ∈ (run_cleanup_job db now).tickets, t'.id = t.id →
      t'.description = "[CLEANED]" ∧ t'.username = "[ANONYMIZED]") ∧
    (∃ j, completedJobsFor (run_cleanup_job db now) t.id = [j] ∧
      j.files_cleaned = (photosFor db t.id).length) ∧
    (∀ now2,
      msgsFor (run_cleanup_job (run_cleanup_job db now) now2) t.id =
        msgsFor (run_cleanup_job db now) t.id ∧
      photosFor (run_cleanup_job (run_cleanup_job db now) now2) t.id =
        photosFor (run_cleanup_job db now) t.id ∧
      jobsFor (run_cleanup_job (run_cleanup_job db now) now2) t.id =
        jobsFor (run_cleanup_job db now) t.id ∧
      rowsFor (run_cleanup_job (run_cleanup_job db now) now2) t.id =
        rowsFor (run_cleanup_job db now) t.id) := by
  obtain ⟨c, hcsome, hcold⟩ := hclosed
  have helig : cleanupEligible db (now - retentionSeconds) t = true := by
    unfold cleanupEligible
    have hany : db.cleanup_jobs.any (fun j => j.status == "completed" &&
        j.ticket_id == t.id) = false := by
      apply List.any_eq_false.mpr
      intro j hj
      by_cases hjt : j.ticket_id = t.id
      · simp [hjt, hnojob j hj hjt]
      · simp [hjt]
    simp [hstatus, hcsome, hcold, hany]
  have htmem : t.id ∈ (db.tickets.filter
      (cleanupEligible db (now - retentionSeconds))).map (fun t => t.id) :=
    List.mem_map.mpr ⟨t, List.mem_filter.mpr ⟨hmem, helig⟩, rfl⟩
  have hsub : List.Sublist
      ((db.tickets.filter
        (cleanupEligible db (now - retentionSeconds))).map (fun t => t.id))
      (db.tickets.map (fun t => t.id)) :=
    (List.filter_sublist db.tickets).map (fun t => t.id)
  have hnd := hids.sublist hsub
  obtain ⟨l1, l2, hsplit⟩ := List.append_of_mem htmem
  rw [hsplit] at hnd
  obtain ⟨hndl1, hndc, hdisj⟩ := List.nodup_append.mp hnd
  have hnotin1 : t.id ∉ l1 := fun h => hdisj h (List.mem_cons_self _ _)
  have hnotin2 : t.id ∉ l2 := (List.nodup_cons.mp hndc).1
  have hnodupP : ((photosFor db t.id).map (fun q => q.file_path)).Nodup := by
    refine hpaths.sublist ?_
    exact (List.filter_sublist db.ticket_photos).map _
  have hSep0 : ∀ q ∈ db.ticket_photos, q.ticket_id ≠ t.id →
      q.file_path ∉ (photosFor db t.id).map (fun r => r.file_path) := by
    intro q hq hqt hcontra
    obtain ⟨r, hr, hrp⟩ := List.mem_map.mp hcontra
    have hrmem := List.mem_of_mem_filter hr
    have hrid : r.ticket_id = t.id := by
      have := (List.mem_filter.mp hr).2
      simpa using this
    have := List.inj_on_of_nodup_map hpaths hrmem hq hrp
    rw [this] at hrid
    exact hqt hrid
  have hLive0 : ∀ p ∈ (photosFor db t.id).map (fun q => q.file_path),
      p ∈ db.files := by
    intro p hp
    obtain ⟨q, hq, rfl⟩ := List.mem_map.mp hp
    exact hlive q hq
  have inv0 : C4Inv (photosFor db t.id) (msgsFor db t.id)
      (jobsFor db t.id) (rowsFor db t.id) t.id db :=
    ⟨rfl, rfl, rfl, rfl, hLive0, hSep0⟩
  have invA := C4Inv_foldl _ _ _ _ t.id (now - retentionSeconds) now l1
    hnotin1 db inv0
  obtain ⟨hAM, hAP, hAJ, hAR, hALive, hASep⟩ := invA
  have hnodupA : ((photosFor (l1.foldl
      (cleanupStep (now - retentionSeconds) now) db) t.id).map
      (fun q => q.file_path)).Nodup := by
    rw [hAP]
    exact hnodupP
  have hliveA : ∀ q ∈ photosFor (l1.foldl
      (cleanupStep (now - retentionSeconds) now) db) t.id,
      q.file_path ∈ (l1.foldl
        (cleanupStep (now - retentionSeconds) now) db).files := by
    intro q hq
    rw [hAP] at hq
    exact hALive q.file_path (List.mem_map.mpr ⟨q, hq, rfl⟩)
  obtain ⟨hBM, hBP, hBJ, hBR⟩ := cleanupStep_self (now - retentionSeconds)
    now (l1.foldl (cleanupStep (now - retentionSeconds) now) db) t.id
    hnodupA hliveA
  rw [hAJ, hAP] at hBJ
  rw [hAR] at hBR
  have invB : C4Inv [] []
      (jobsFor db t.id ++
        [{ id := (l1.foldl (cleanupStep (now - retentionSeconds) now)
             db).nextJobId,
           ticket_id := t.id, scheduled_date := now - retentionSeconds,
           executed_date := some now,
           files_cleaned := (photosFor db t.id).length,
           status := "completed" }])
      ((rowsFor db t.id).map anonymize) t.id
      (cleanupStep (now - retentionSeconds) now
        (l1.foldl (cleanupStep (now - retentionSeconds) now) db) t.id) :=
    ⟨hBM, hBP, hBJ, hBR, by simp, by simp⟩
  have final := C4Inv_foldl _ _ _ _ t.id (now - retentionSeconds) now l2
    hnotin2 _ invB
  obtain ⟨hFM, hFP, hFJ, hFR, -, -⟩ := final
  have hrun : run_cleanup_job db now =
      l2.foldl (cleanupStep (now - retentionSeconds) now)
        (cleanupStep (now - retentionSeconds) now
          (l1.foldl (cleanupStep (now - retentionSeconds) now) db) t.id) := by
    show ((db.tickets.filter
        (cleanupEligible db (now - retentionSeconds))).map
        (fun t => t.id)).foldl
        (cleanupStep (now - retentionSeconds) now) db = _
    rw [hsplit, List.foldl_append, List.foldl_cons]
  rw [hrun]
  refine ⟨hFM, hFP, ?_, ?_, ?_⟩
  · intro t' ht' htid
    have ht'row : t' ∈ rowsFor (l2.foldl
        (cleanupStep (now - retentionSeconds) now)
        (cleanupStep (now - retentionSeconds) now
          (l1.foldl (cleanupStep (now - retentionSeconds) now) db)
          t.id)) t.id :=
      List.mem_filter.mpr ⟨ht', by simp [htid]⟩
    rw [hFR] at ht'row
    obtain ⟨r, hr, hreq⟩ := List.mem_map.mp ht'row
    rw [← hreq]
    exact ⟨rfl, rfl⟩
  · refine ⟨{ id := (List.foldl (cleanupStep (now - retentionSeconds) now) db l1).nextJobId,
              ticket_id := t.id,
              scheduled_date := now - retentionSeconds,
              executed_date := some now,
              files_cleaned := (photosFor db t.id).length,
              status := "completed" }, ?_, rfl⟩
    unfold completedJobsFor
    rw [hFJ, List.filter_append]
    have hleft : (jobsFor db t.id).filter
        (fun j => j.status == "completed") = [] := by
      apply List.filter_eq_nil_iff.mpr
      intro j hj
      have hjt : j.ticket_id = t.id := by
        have := (List.mem_filter.mp hj).2
        simpa using this
      simp [hnojob j (List.mem_of_mem_filter hj) hjt]
    rw [hleft, List.nil_append]
    rfl
  · intro now2
    have hjobmem : ∃ j ∈ (l2.foldl (cleanupStep (now - retentionSeconds) now)
        (cleanupStep (now - retentionSeconds) now
          (l1.foldl (cleanupStep (now - retentionSeconds) now) db)
          t.id)).cleanup_jobs, j.status = "completed" ∧
        j.ticket_id = t.id := by
      have hj : ∃ j ∈ jobsFor (l2.foldl
          (cleanupStep (now - retentionSeconds) now)
          (cleanupStep (now - retentionSeconds) now
            (l1.foldl (cleanupStep (now - retentionSeconds) now) db)
            t.id)) t.id, j.status = "completed" := by
        rw [hFJ]
        exact ⟨_, List.mem_append_right _ (List.mem_cons_self _ _), rfl⟩
      obtain ⟨j, hjmem, hjs⟩ := hj
      refine ⟨j, List.mem_of_mem_filter hjmem, hjs, ?_⟩
      have := (List.mem_filter.mp hjmem).2
      simpa using this
    have hres := run_cleanup_noop_for _ now2 t.id hjobmem hFP
    exact ⟨hres.1, by rw [hres.2.1, hFP], hres.2.2.1, hres.2.2.2⟩

/-- C4 witness: the cleanup run over the concrete retention store — ticket
1 closed at time 100, run at time 604901 (past the 7-day window), two
stored attachments — empties its messages and photos and books one
completed job with files_cleaned = 2. -/
theorem c4_witness :
    msgsFor (run_cleanup_job dbRetention 604901) 1 = [] ∧
    photosFor (run_cleanup_job dbRetention 604901) 1 = [] ∧
    ∃ j, completedJobsFor (run_cleanup_job dbRetention 604901) 1 = [j] ∧
      j.files_cleaned = 2 := by
  obtain ⟨h1, h2, h3, ⟨j, hj, hn⟩, h5⟩ := c4_retention_cleanup dbRetention
    604901 closedTicket (by decide) (by decide) (by decide)
    ⟨100, by decide, by decide⟩ (by decide) (by decide) (by decide)
  refine ⟨h1, h2, j, hj, ?_⟩
  rw [hn]
  decide

end SupportBot
